import Mathlib

/-!
Verification of the gistapi Flask service (src/gistapi/gistapi.py) against its
natural-language specification.

The Python module is shallowly embedded as pure Lean functions.  Effects are
made explicit:

* JSON values decoded from request or response bodies are an inductive Json.
* Python exceptions become an error type PyExc threaded through Except.
* The network is an oracle Env.net mapping a URL to an optional Response
  (none models a transport error raised by requests.get).
* The optional redis cache and the ordered list of URLs passed to
  requests.get (the fetch log) form the state St, threaded explicitly.
  The log records every upstream request, so temporal claims (how many
  fetches, which pages, whether a URL was ever requested) become statements
  about the final log.
* re.compile is an oracle Env.reCompile from pattern source strings to an
  optional compiled regex (none models re.error); the compiled regex is a
  small regex AST whose match-at-position-0 semantics mirrors re.match.
-/

namespace Gistapi

/-- JSON values, as produced by response.json(), json.loads and
request.get_json().  Objects keep the key order of the source text; keys are
assumed unique, as Python dicts have unique keys (for duplicate keys in raw
JSON text CPython keeps the last value; objects in this development are only
used with distinct keys). -/
inductive Json where
  | null
  | b (v : Bool)
  | n (v : Int)
  | s (v : String)
  | arr (elems : List Json)
  | obj (fields : List (String × Json))

/-- Python exceptions that the source can raise, including the three exception
classes the module defines itself (ExternalError, UserNotFound,
BadOrMissingParameter). -/
inductive PyExc where
  | keyError
  | typeError
  | attributeError
  | jsonDecodeError
  | requestException
  | httpError
  | reError
  | externalError
  | userNotFound
  | badOrMissingParameter
deriving DecidableEq

/-- Compiled regular expressions (the abstract syntax the compile oracle
produces).  Only the matching semantics matters for the claims: epsilon,
single character, wildcard, alternation, concatenation and star. -/
inductive Regex where
  | emp
  | eps
  | chr (c : Char)
  | any
  | alt (a b : Regex)
  | cat (a b : Regex)
  | star (a : Regex)

/-- Does the regex accept the empty word? -/
def Regex.nullable : Regex → Bool
  | .emp => false
  | .eps => true
  | .chr _ => false
  | .any => false
  | .alt a b => a.nullable || b.nullable
  | .cat a b => a.nullable && b.nullable
  | .star _ => true

/-- Brzozowski derivative of a regex by one character. -/
def Regex.deriv : Regex → Char → Regex
  | .emp, _ => .emp
  | .eps, _ => .emp
  | .chr c, d => if c = d then .eps else .emp
  | .any, _ => .eps
  | .alt a b, d => .alt (a.deriv d) (b.deriv d)
  | .cat a b, d =>
      if a.nullable then .alt (.cat (a.deriv d) b) (b.deriv d)
      else .cat (a.deriv d) b
  | .star a, d => .cat (a.deriv d) (.star a)

/-- Does the regex accept exactly the given word (derivative semantics)? -/
def acceptsChars (r : Regex) (cs : List Char) : Bool :=
  (cs.foldl Regex.deriv r).nullable

/-- Does the regex match at position 0, consuming some initial segment of the
character list?  This is the semantics of Python re.match. -/
def matchAux (r : Regex) : List Char → Bool
  | [] => r.nullable
  | c :: cs => r.nullable || matchAux (r.deriv c) cs

/-- re.match semantics on strings: the pattern must match starting at the
beginning of the text. -/
def reMatchAt0 (r : Regex) (t : String) : Bool :=
  matchAux r t.toList

/-- Follows the spec words only: full-text (match anywhere) search semantics,
which the spec states the source does NOT use.  Used only to contrast with
reMatchAt0. -/
def specSearchAnywhere (r : Regex) (t : String) : Bool :=
  t.toList.tails.any (fun cs => matchAux r cs)

/-- Keys of a Python dict in insertion order: first occurrence of each key.
The seen accumulator carries the keys already emitted. -/
def dedupFirst (seen : List String) : List String → List String
  | [] => []
  | a :: rest =>
      if a ∈ seen then dedupFirst seen rest
      else a :: dedupFirst (a :: seen) rest

/-- dict.keys() of a JSON object. -/
def pyKeys (fields : List (String × Json)) : List String :=
  dedupFirst [] (fields.map Prod.fst)

/-- Python subscript x[k]: KeyError when the key is absent, TypeError when the
value is not a dict. -/
def jsonGet (j : Json) (k : String) : Except PyExc Json :=
  match j with
  | .obj fields =>
      match fields.lookup k with
      | some v => .ok v
      | none => .error .keyError
  | _ => .error .typeError

/-- Python test x == None on a JSON-decoded value. -/
def isNone : Json → Bool
  | .null => true
  | _ => false

/-- Python truthiness of a JSON-decoded value. -/
def truthy : Json → Bool
  | .null => false
  | .b v => v
  | .n v => v != 0
  | .s t => !t.isEmpty
  | .arr xs => !xs.isEmpty
  | .obj fields => !(pyKeys fields).isEmpty

/-- Python len() of a JSON-decoded value; TypeError for unsized values. -/
def pyLen : Json → Except PyExc Nat
  | .arr xs => .ok xs.length
  | .obj fields => .ok (pyKeys fields).length
  | .s t => .ok t.length
  | _ => .error .typeError

/-- Python list concatenation used by all_gists += response.json().  Both
operands are JSON arrays in every specified behaviour; remaining combinations
(some of which real Python partially allows, such as list += str) are modeled
as TypeError, which the enclosing bare except in gists_for_user turns into
ExternalError just like any other failure. -/
def pyAdd : Json → Json → Except PyExc Json
  | .arr xs, .arr ys => .ok (.arr (xs ++ ys))
  | _, _ => .error .typeError

/-- Python iteration (for x in j): arrays yield elements, dicts yield keys,
strings yield one-character strings; other values raise TypeError. -/
def pyIter : Json → Except PyExc (List Json)
  | .arr xs => .ok xs
  | .obj fields => .ok ((pyKeys fields).map Json.s)
  | .s t => .ok (t.toList.map (fun c => Json.s (String.singleton c)))
  | _ => .error .typeError

mutual

/-- json.dumps of a JSON value (Python default separators). -/
def dumps : Json → String
  | .null => "null"
  | .b true => "true"
  | .b false => "false"
  | .n v => toString v
  | .s t => "\"" ++ t ++ "\""
  | .arr xs => "[" ++ dumpsElems xs ++ "]"
  | .obj fields => "\x7b" ++ dumpsFields fields ++ "\x7d"

/-- Comma-separated serialization of array elements. -/
def dumpsElems : List Json → String
  | [] => ""
  | [x] => dumps x
  | x :: y :: rest => dumps x ++ ", " ++ dumpsElems (y :: rest)

/-- Comma-separated serialization of object fields. -/
def dumpsFields : List (String × Json) → String
  | [] => ""
  | [kv] => "\"" ++ kv.1 ++ "\": " ++ dumps kv.2
  | kv :: kv2 :: rest => "\"" ++ kv.1 ++ "\": " ++ dumps kv.2 ++ ", " ++ dumpsFields (kv2 :: rest)

end

/-- Python str() of a JSON-decoded value, as used by str.format in URL
construction.  Scalar cases are exact; container cases reuse the JSON
serialization (Python repr differs in quoting, but every specified behaviour
formats strings only). -/
def pyFormat : Json → String
  | .s t => t
  | .n v => toString v
  | .b true => "True"
  | .b false => "False"
  | .null => "None"
  | j => dumps j

/-- An HTTP response as seen through the requests library: status code, body
text, and the parsed JSON body when the body is valid JSON (none makes
response.json() raise). -/
structure Response where
  status_code : Nat
  text : String
  jsonVal : Option Json

/-- The ambient environment: whether the redis cache is configured
(WITH_REDIS), the network oracle (none is a transport error raised by
requests.get), the regex compile oracle (none is re.error), and a parsing
oracle for json.loads on strings not produced by this module own dumps. -/
structure Env where
  withRedis : Bool
  net : String → Option Response
  reCompile : String → Option Regex
  jsonLoads : String → Except PyExc Json

/-- Mutable state threaded through a request: the redis keyspace (later
writes are consed in front, lookup takes the first binding) and the ordered
log of URLs passed to requests.get. -/
structure St where
  cache : List (String × String)
  log : List String

/-- requests.get: the URL is recorded in the fetch log whatever the outcome;
a transport failure raises requests.exceptions.RequestException. -/
def requests_get (env : Env) (url : String) (st : St) :
    Except PyExc Response × St :=
  let st2 := { st with log := st.log ++ [url] }
  match env.net url with
  | none => (.error .requestException, st2)
  | some r => (.ok r, st2)

/-- response.raise_for_status(): raises for 4xx and 5xx status codes. -/
def raise_for_status (r : Response) : Except PyExc Unit :=
  if 400 ≤ r.status_code then .error .httpError else .ok ()

/-- response.json(): the parsed body, or JSONDecodeError. -/
def jsonOf (r : Response) : Except PyExc Json :=
  match r.jsonVal with
  | some j => .ok j
  | none => .error .jsonDecodeError

/-- URL of the user resource queried by check_user_exists. -/
def userUrl (username : String) : String :=
  "https://api.github.com/users/" ++ username

/-- URL of one page of the gist listing, as formatted in gists_for_user. -/
def gistsUrl (username : String) (per_page page : Nat) : String :=
  "https://api.github.com/users/" ++ username ++ "/gists?per_page=" ++
    toString per_page ++ "&page=" ++ toString page

/-- Canonical gist URL appended to the matches list by search. -/
def canonUrl (username gid : Json) : String :=
  "https://gist.github.com/" ++ pyFormat username ++ "/" ++ pyFormat gid

/-- fetch_file_content: resolve the text of one (truncated) file from its
raw URL, read-through over the redis cache when configured.  The source
passes file_object raw_url, a JSON-decoded value, straight to redis and
requests; a non-string URL raises.  Note the absence of raise_for_status:
the body of a non-2xx response is returned (and cached) as content. -/
def fetch_file_content (env : Env) (raw_url : Json) (st : St) :
    Except PyExc String × St :=
  match raw_url with
  | .s u =>
      let check_cache : Option String :=
        if env.withRedis then st.cache.lookup u else none
      match check_cache with
      | some cached => (.ok cached, st)
      | none =>
          match requests_get env u st with
          | (.error e, st2) => (.error e, st2)
          | (.ok r, st2) =>
              let st3 :=
                if env.withRedis then
                  { st2 with cache := (u, r.text) :: st2.cache }
                else st2
              (.ok r.text, st3)
  | _ => (.error .typeError, st)

/-- fetch_single_gist: resolve the JSON document of one gist from its API
URL, read-through over the redis cache when configured.  A cache hit is
passed through json.loads; a miss caches json.dumps of the parsed body.
No raise_for_status here either: only response.json() can fail. -/
def fetch_single_gist (env : Env) (url : Json) (st : St) :
    Except PyExc Json × St :=
  match url with
  | .s u =>
      let check_cache : Option String :=
        if env.withRedis then st.cache.lookup u else none
      match check_cache with
      | some cached => (env.jsonLoads cached, st)
      | none =>
          match requests_get env u st with
          | (.error e, st2) => (.error e, st2)
          | (.ok r, st2) =>
              match jsonOf r with
              | .error e => (.error e, st2)
              | .ok j =>
                  let st3 :=
                    if env.withRedis then
                      { st2 with cache := (u, dumps j) :: st2.cache }
                    else st2
                  (.ok j, st3)
  | _ => (.error .typeError, st)

/-- check_user_exists: GET the user resource and raise UserNotFound on a 404.
Any other status code passes silently (there is no raise_for_status); a
transport failure propagates as the generic requests exception. -/
def check_user_exists (env : Env) (username : Json) (st : St) :
    Except PyExc Unit × St :=
  match requests_get env (userUrl (pyFormat username)) st with
  | (.error e, st2) => (.error e, st2)
  | (.ok r, st2) =>
      if r.status_code = 404 then (.error .userNotFound, st2)
      else (.ok (), st2)

/-- The while loop of gists_for_user.  The source condition is
len(response.json()) == per_page and page <= 30, checked before each
iteration; the bound page <= 30 is carried here as fuel = 31 - page so that
the recursion is structural (gists_for_user enters with page = 1 and
fuel = 30, and fuel reaches 0 exactly when page reaches 31).  len() of the
last parsed page is evaluated first, exactly as in the source, so its
failure propagates even when the page cap is reached. -/
def gistsLoop (env : Env) (u : String) (fuel : Nat) (lastPage allGists : Json)
    (page : Nat) (st : St) : Except PyExc Json × St :=
  match pyLen lastPage with
  | .error e => (.error e, st)
  | .ok l =>
      match fuel with
      | 0 => (.ok allGists, st)
      | fuel' + 1 =>
          if l = 100 then
            let page2 := page + 1
            match requests_get env (gistsUrl u 100 page2) st with
            | (.error e, st2) => (.error e, st2)
            | (.ok r, st2) =>
                match raise_for_status r with
                | .error e => (.error e, st2)
                | .ok _ =>
                    match jsonOf r with
                    | .error e => (.error e, st2)
                    | .ok j2 =>
                        match pyAdd allGists j2 with
                        | .error e => (.error e, st2)
                        | .ok acc2 => gistsLoop env u fuel' j2 acc2 page2 st2
          else (.ok allGists, st)

/-- gists_for_user: fetch page 1 (per_page = 100), then keep fetching while
the previous page was exactly full and the page number has not passed 30.
The whole body sits in a try whose bare except re-raises ExternalError, so
every failure (transport, HTTP status via raise_for_status, JSON decoding,
anything else) surfaces as ExternalError. -/
def gists_for_user (env : Env) (username : Json) (st : St) :
    Except PyExc Json × St :=
  let u := pyFormat username
  let body : Except PyExc Json × St :=
    match requests_get env (gistsUrl u 100 1) st with
    | (.error e, st2) => (.error e, st2)
    | (.ok r, st2) =>
        match raise_for_status r with
        | .error e => (.error e, st2)
        | .ok _ =>
            match jsonOf r with
            | .error e => (.error e, st2)
            | .ok j => gistsLoop env u 30 j j 1 st2
  match body with
  | (.error _, st2) => (.error .externalError, st2)
  | (.ok v, st2) => (.ok v, st2)

/-- re.match(pattern, file_text) as called in the search loop: the pattern
source is recompiled through the (deterministic) compile oracle, matching
CPython re module cache; a non-string pattern or text raises TypeError. -/
def re_match_py (env : Env) (pattern text : Json) : Except PyExc Bool :=
  match pattern, text with
  | .s p, .s t =>
      match env.reCompile p with
      | some r => .ok (reMatchAt0 r t)
      | none => .error .reError
  | .s _, _ => .error .typeError
  | _, _ => .error .typeError

/-- The inner file loop of search, for one gist: iterate the keys of the
files dict in order; resolve each file text (inline content, or
fetch_file_content for a truncated file); stop with true at the first file
whose text matches the pattern at position 0.  The source appends the gist
URL and breaks inside this loop; appending is performed by the caller on a
true result, which is observationally identical. -/
def scanFiles (env : Env) (pattern : Json) (filesObj : List (String × Json))
    (keys : List String) (st : St) : Except PyExc Bool × St :=
  match keys with
  | [] => (.ok false, st)
  | k :: rest =>
      match jsonGet (.obj filesObj) k with
      | .error e => (.error e, st)
      | .ok file_object =>
          match jsonGet file_object "truncated" with
          | .error e => (.error e, st)
          | .ok tr =>
              let fetched : Except PyExc Json × St :=
                if truthy tr then
                  match jsonGet file_object "raw_url" with
                  | .error e => (.error e, st)
                  | .ok ru =>
                      match fetch_file_content env ru st with
                      | (.error e, st2) => (.error e, st2)
                      | (.ok t, st2) => (.ok (.s t), st2)
                else
                  match jsonGet file_object "content" with
                  | .error e => (.error e, st)
                  | .ok c => (.ok c, st)
              match fetched with
              | (.error e, st2) => (.error e, st2)
              | (.ok textJ, st2) =>
                  match re_match_py env pattern textJ with
                  | .error e => (.error e, st2)
                  | .ok true => (.ok true, st2)
                  | .ok false => scanFiles env pattern filesObj rest st2

/-- The outer gist loop of search: for each listed gist, fetch the full gist
by its url field, scan its files, and on a match append the canonical URL
built from the requested username and the fetched gist id field.  Iteration
continues past non-matching gists. -/
def searchLoop (env : Env) (username pattern : Json) (gists : List Json)
    (matching : List String) (st : St) : Except PyExc (List String) × St :=
  match gists with
  | [] => (.ok matching, st)
  | gist :: rest =>
      match jsonGet gist "url" with
      | .error e => (.error e, st)
      | .ok gurl =>
          match fetch_single_gist env gurl st with
          | (.error e, st2) => (.error e, st2)
          | (.ok gist_full, st2) =>
              match jsonGet gist_full "files" with
              | .error e => (.error e, st2)
              | .ok filesJ =>
                  match filesJ with
                  | .obj fields =>
                      match scanFiles env pattern fields (pyKeys fields) st2 with
                      | (.error e, st3) => (.error e, st3)
                      | (.ok true, st3) =>
                          match jsonGet gist_full "id" with
                          | .error e => (.error e, st3)
                          | .ok gid =>
                              searchLoop env username pattern rest
                                (matching ++ [canonUrl username gid]) st3
                      | (.ok false, st3) =>
                          searchLoop env username pattern rest matching st3
                  | _ => (.error .attributeError, st2)

/-- The validation part of the search view, everything before the line
result is initialised: subscript post_data for username and pattern (KeyError
when absent), raise BadOrMissingParameter when either is None, and compile
the pattern, converting any compile failure (including TypeError for a
non-string pattern) to BadOrMissingParameter.  The compiled regex is
discarded by the source, which keeps the pattern source string.  Pure: no
request is issued here. -/
def search_validate (env : Env) (post_data : Json) :
    Except PyExc (Json × Json) :=
  match jsonGet post_data "username" with
  | .error e => .error e
  | .ok u0 =>
      if isNone u0 then .error .badOrMissingParameter
      else
        match jsonGet post_data "pattern" with
        | .error e => .error e
        | .ok p0 =>
            if isNone p0 then .error .badOrMissingParameter
            else
              match p0 with
              | .s ps =>
                  match env.reCompile ps with
                  | some _ => .ok (u0, p0)
                  | none => .error .badOrMissingParameter
              | _ => .error .badOrMissingParameter

/-- The effectful part of the search view, everything after the line result
is initialised: existence check, listing, then the gist loop over the listed
gists with an empty accumulator. -/
def search_pipeline (env : Env) (username pattern : Json) (st : St) :
    Except PyExc (List String) × St :=
  match check_user_exists env username st with
  | (.error e, st2) => (.error e, st2)
  | (.ok _, st2) =>
      match gists_for_user env username st2 with
      | (.error e, st3) => (.error e, st3)
      | (.ok gistsJ, st3) =>
          match pyIter gistsJ with
          | .error e => (.error e, st3)
          | .ok gl => searchLoop env username pattern gl [] st3

/-- Responses of the search view as observable over HTTP: the JSON success
body, one of the structured JSON error bodies with its status code, or an
unhandled exception escaping the view function, which Flask converts to a
generic 500 Internal Server Error page. -/
inductive HttpReply where
  | json200 (username pattern : Json) (found : List String)
  | jsonErr (code : Nat) (message : String)
  | internalError

/-- Message of a structured JSON error reply, if any. -/
def replyMessage : HttpReply → Option String
  | .jsonErr _ m => some m
  | _ => none

/-- The search view (POST /api/v1/search).  The local variable result is
assigned only after validation and pattern compilation, so an exception
raised before that point reaches an except clause whose first statement
subscripts the unbound result variable: the handler itself raises
UnboundLocalError, which escapes the view (internalError).  Exceptions
raised after result is bound are mapped by the except clauses to the
structured JSON error bodies. -/
def search (env : Env) (post_data : Json) (st : St) : HttpReply × St :=
  match search_validate env post_data with
  | .error _ => (.internalError, st)
  | .ok (username, pattern) =>
      match search_pipeline env username pattern st with
      | (.ok matching, st2) => (.json200 username pattern matching, st2)
      | (.error .userNotFound, st2) => (.jsonErr 400 "Invalid username", st2)
      | (.error .badOrMissingParameter, st2) =>
          (.jsonErr 400 "Bad or missing parameter", st2)
      | (.error .externalError, st2) =>
          (.jsonErr 500 "Information could not be retrieved from Github", st2)
      | (.error _, st2) =>
          (.jsonErr 500 "Your request could not be processed", st2)

/-! ### Concrete instances used by witnesses and counterexamples -/

/-- The empty initial state: empty cache, empty fetch log. -/
def st0 : St := ⟨[], []⟩

/-- A 200 response with no JSON body. -/
def resp200 : Response := ⟨200, "", none⟩

/-- A 404 response. -/
def resp404 : Response := ⟨404, "", none⟩

/-- A 500 response with an empty body. -/
def resp500 : Response := ⟨500, "", none⟩

/-- A 200 response with body text hello (no JSON). -/
def respC6 : Response := ⟨200, "hello", none⟩

/-- A 200 response whose JSON body is the given array. -/
def listResp (items : List Json) : Response := ⟨200, "", some (.arr items)⟩

/-- A 200 response whose JSON body is the given value. -/
def jsonResp (j : Json) : Response := ⟨200, "", some j⟩

/-- A file entry of the files dict that is not truncated and carries inline
content. -/
def plainFile (c : String) : Json :=
  .obj [("truncated", Json.b false), ("content", Json.s c)]

/-- A truncated file entry of the files dict, carrying a raw-content URL. -/
def truncFile (ru : Json) : Json :=
  .obj [("truncated", Json.b true), ("raw_url", ru)]

/-- Description of one gist for structured environments: the API URL of its
stub in the listing, its id, and its files as pairs of filename and inline
(non-truncated) content. -/
structure GistDesc where
  stubUrl : String
  gid : String
  files : List (String × String)

/-- The listing stub of a gist: the object with its url field, as iterated
by the gist loop. -/
def stubJson (d : GistDesc) : Json := .obj [("url", Json.s d.stubUrl)]

/-- The full gist document served at the stub URL: id plus the files dict of
non-truncated entries. -/
def fullJson (d : GistDesc) : Json :=
  .obj [("id", Json.s d.gid),
        ("files", .obj (d.files.map fun nc => (nc.1, plainFile nc.2)))]

/-- Does a document with the given (filename, content) manifest contain a
file whose content matches the pattern at position 0? -/
def docMatch (r : Regex) (files : List (String × String)) : Bool :=
  files.any fun nc => reMatchAt0 r nc.2

/-- Environment with no redis, every request a transport error, and no
pattern compiling. -/
def env0 : Env := ⟨false, fun _ => none, fun _ => none, fun _ => .error .jsonDecodeError⟩

/-- Environment answering every request with a 404. -/
def env404 : Env :=
  ⟨false, fun _ => some resp404, fun _ => some (Regex.chr 'a'),
   fun _ => .error .jsonDecodeError⟩

/-- Environment answering every request with a 500. -/
def env500 : Env :=
  ⟨false, fun _ => some resp500, fun _ => none, fun _ => .error .jsonDecodeError⟩

/-- Environment with redis enabled and a constant 200 text response. -/
def envC6 : Env :=
  ⟨true, fun _ => some respC6, fun _ => none, fun _ => .error .jsonDecodeError⟩

/-- Environment with redis disabled and a constant 200 text response. -/
def envC6off : Env :=
  ⟨false, fun _ => some respC6, fun _ => none, fun _ => .error .jsonDecodeError⟩

/-- Environment for the per-document failure scenario: the user exists, the
listing returns one gist stub whose own URL g1 suffers a transport error. -/
def env3 : Env :=
  ⟨false,
   fun url =>
     if url = userUrl "u" then some resp200
     else if url = gistsUrl "u" 100 1 then
       some (listResp [Json.obj [("url", Json.s "g1")]])
     else none,
   fun _ => some (Regex.chr 'a'),
   fun _ => .error .jsonDecodeError⟩

/-- The request body used with env3. -/
def pd3 : Json := .obj [("username", Json.s "u"), ("pattern", Json.s "a")]

/-- A full listing page of 100 items. -/
def full100 : List Json := List.replicate 100 Json.null

/-- Environment in which every listing page is exactly full. -/
def envAllFull : Env :=
  ⟨false, fun _ => some (listResp full100), fun _ => none,
   fun _ => .error .jsonDecodeError⟩

/-- Page contents for the two-page scenario: page 1 full, later pages short. -/
def items8 : Nat → List Json := fun p => if p = 1 then full100 else [Json.null]

/-- Environment serving a full page 1 and a one-item page otherwise. -/
def env8 : Env :=
  ⟨false,
   fun url =>
     if url = gistsUrl "bob" 100 1 then some (listResp full100)
     else some (listResp [Json.null]),
   fun _ => none, fun _ => .error .jsonDecodeError⟩

/-- Environment for matcher witnesses: pattern p compiles to the regex
matching the single character f; every fetch returns the text frob. -/
def env5 : Env :=
  ⟨false, fun _ => some ⟨200, "frob", none⟩,
   fun s => if s = "p" then some (Regex.chr 'f') else none,
   fun _ => .error .jsonDecodeError⟩

/-- Gists for the success-path witness: D1 does not match pattern f at
position 0, D2 and D3 do. -/
def d1 : GistDesc := ⟨"https://api.github.com/gists/1", "id1", [("a.txt", "xoo")]⟩

/-- Second gist for the success-path witness (matches). -/
def d2 : GistDesc := ⟨"https://api.github.com/gists/2", "id2", [("b.txt", "foo")]⟩

/-- Third gist for the success-path witness (second file matches). -/
def d3 : GistDesc :=
  ⟨"https://api.github.com/gists/3", "id3", [("c.txt", "bar"), ("d.txt", "fog")]⟩

/-- Environment for the success-path witness: user alice exists, her listing
is the three stubs, each stub URL serves the corresponding full gist. -/
def env7 : Env :=
  ⟨false,
   fun url =>
     if url = userUrl "alice" then some resp200
     else if url = gistsUrl "alice" 100 1 then
       some (listResp [stubJson d1, stubJson d2, stubJson d3])
     else if url = d1.stubUrl then some (jsonResp (fullJson d1))
     else if url = d2.stubUrl then some (jsonResp (fullJson d2))
     else if url = d3.stubUrl then some (jsonResp (fullJson d3))
     else none,
   fun s => if s = "pat" then some (Regex.chr 'f') else none,
   fun _ => .error .jsonDecodeError⟩

/-- The request body used with env7. -/
def pd7 : Json := .obj [("username", Json.s "alice"), ("pattern", Json.s "pat")]

/-- A single gist stub for the bound witness. -/
def gist10 : Json := .obj [("url", Json.s "https://api.github.com/gists/x")]

/-- Environment serving one matching gist document for the bound witness. -/
def env10 : Env :=
  ⟨false,
   fun _ => some (jsonResp (Json.obj
     [("id", Json.s "x1"), ("files", Json.obj [("a", plainFile "foo")])])),
   fun _ => some (Regex.chr 'f'), fun _ => .error .jsonDecodeError⟩

/-! ### Theorems -/

/-- Claim C6: with a CacheStore configured, resolving the same raw-content
URL twice performs exactly one upstream fetch for that URL (the value fetched
on the first miss is written back under the exact URL key and served on the
second call) and both calls return identical content; with no CacheStore
configured, each resolution of the same URL performs its own upstream fetch.
The fetch log extends by the URL exactly once across both calls in the first
part, and once per call in the second part. -/
theorem C6_cache_round_trip :
    (∀ (env : Env) (u : String) (st : St) (r : Response),
      env.withRedis = true → st.cache.lookup u = none → env.net u = some r →
      fetch_file_content env (.s u) st
        = (.ok r.text, ⟨(u, r.text) :: st.cache, st.log ++ [u]⟩)
      ∧ fetch_file_content env (.s u) ⟨(u, r.text) :: st.cache, st.log ++ [u]⟩
        = (.ok r.text, ⟨(u, r.text) :: st.cache, st.log ++ [u]⟩))
    ∧ (∀ (env : Env) (u : String) (st : St) (r : Response),
      env.withRedis = false → env.net u = some r →
      fetch_file_content env (.s u) st = (.ok r.text, ⟨st.cache, st.log ++ [u]⟩)
      ∧ fetch_file_content env (.s u) ⟨st.cache, st.log ++ [u]⟩
        = (.ok r.text, ⟨st.cache, (st.log ++ [u]) ++ [u]⟩)) := by
  constructor
  · intro env u st r hr hc hn
    constructor
    · simp [fetch_file_content, requests_get, hr, hc, hn]
    · simp [fetch_file_content, hr, List.lookup]
  · intro env u st r hr hn
    constructor
    · simp [fetch_file_content, requests_get, hr, hn]
    · simp [fetch_file_content, requests_get, hr, hn]

/-- Witness for C6_cache_round_trip at a concrete environment and URL. -/
theorem C6_cache_round_trip_witness :
    (envC6.withRedis = true ∧ st0.cache.lookup "http://r" = none
      ∧ envC6.net "http://r" = some respC6)
    ∧ fetch_file_content envC6 (.s "http://r") st0
        = (.ok "hello", ⟨[("http://r", "hello")], ["http://r"]⟩)
    ∧ fetch_file_content envC6 (.s "http://r") ⟨[("http://r", "hello")], ["http://r"]⟩
        = (.ok "hello", ⟨[("http://r", "hello")], ["http://r"]⟩)
    ∧ (envC6off.withRedis = false ∧ envC6off.net "http://r" = some respC6)
    ∧ fetch_file_content envC6off (.s "http://r") st0
        = (.ok "hello", ⟨[], ["http://r"]⟩)
    ∧ fetch_file_content envC6off (.s "http://r") ⟨[], ["http://r"]⟩
        = (.ok "hello", ⟨[], ["http://r", "http://r"]⟩) := by
  have h1 := C6_cache_round_trip.1 envC6 "http://r" st0 respC6 rfl rfl rfl
  have h2 := C6_cache_round_trip.2 envC6off "http://r" st0 respC6 rfl rfl
  refine ⟨⟨rfl, rfl, rfl⟩, ?_, ?_, ⟨rfl, rfl⟩, ?_, ?_⟩
  · simpa [st0, respC6] using h1.1
  · simpa [st0, respC6] using h1.2
  · simpa [st0, respC6] using h2.1
  · simpa [st0, respC6] using h2.2

/-- Claim C2 (code bug): a null username raises BadOrMissingParameter and a
missing field raises KeyError, both before the line that initialises the
local result dict, so the except clauses themselves crash on the unbound
variable and the view surfaces an unhandled-exception 500 instead of the
documented 400 body; an uncompilable pattern takes the same path.  The first
three conjuncts evaluate the view at the failing inputs; the last two
exhibit the exceptions raised by the validation phase. -/
theorem C2_validation_surfaces_500 :
    search env0 (Json.obj [("pattern", Json.s "a")]) st0 = (.internalError, st0)
    ∧ search env0 (Json.obj [("username", Json.null), ("pattern", Json.s "a")]) st0
        = (.internalError, st0)
    ∧ search env0 (Json.obj [("username", Json.s "u"), ("pattern", Json.s "(")]) st0
        = (.internalError, st0)
    ∧ search_validate env0 (Json.obj [("username", Json.null), ("pattern", Json.s "a")])
        = .error .badOrMissingParameter
    ∧ search_validate env0 (Json.obj [("pattern", Json.s "a")]) = .error .keyError :=
  ⟨rfl, rfl, rfl, rfl, rfl⟩

/-- Claim C4 (amended): the existence check maps a 404 response to
UserNotFound (surfaced as 400 Invalid username through the pipeline); every
other response status passes the check silently with no error at all; a
transport failure raises the generic requests exception, which the catch-all
handler surfaces as 500 Your request could not be processed, not as
ExternalError. -/
theorem C4_user_check_amended :
    (∀ (env : Env) (un : Json) (st : St) (r : Response),
      env.net (userUrl (pyFormat un)) = some r → r.status_code = 404 →
      check_user_exists env un st
        = (.error .userNotFound, { st with log := st.log ++ [userUrl (pyFormat un)] }))
    ∧ (∀ (env : Env) (un : Json) (st : St) (r : Response),
      env.net (userUrl (pyFormat un)) = some r → r.status_code ≠ 404 →
      check_user_exists env un st
        = (.ok (), { st with log := st.log ++ [userUrl (pyFormat un)] }))
    ∧ (∀ (env : Env) (un : Json) (st : St),
      env.net (userUrl (pyFormat un)) = none →
      check_user_exists env un st
        = (.error .requestException, { st with log := st.log ++ [userUrl (pyFormat un)] }))
    ∧ (∀ (env : Env) (pd : Json) (up : Json × Json) (st st2 : St),
      search_validate env pd = .ok up →
      search_pipeline env up.1 up.2 st = (.error .userNotFound, st2) →
      search env pd st = (.jsonErr 400 "Invalid username", st2))
    ∧ (∀ (env : Env) (pd : Json) (up : Json × Json) (st st2 : St),
      search_validate env pd = .ok up →
      search_pipeline env up.1 up.2 st = (.error .requestException, st2) →
      search env pd st = (.jsonErr 500 "Your request could not be processed", st2)) := by
  refine ⟨?_, ?_, ?_, ?_, ?_⟩
  · intro env un st r hn h404
    simp [check_user_exists, requests_get, hn, h404]
  · intro env un st r hn h404
    simp [check_user_exists, requests_get, hn, h404]
  · intro env un st hn
    simp [check_user_exists, requests_get, hn]
  · intro env pd up st st2 h1 h2
    obtain ⟨u, p⟩ := up
    simp only [search, h1]
    simp [h2]
  · intro env pd up st st2 h1 h2
    obtain ⟨u, p⟩ := up
    simp only [search, h1]
    simp [h2]

/-- Counterexample for claim C4 as stated: a 500 response on the existence
check does not map to any error (the check passes silently), and a transport
failure raises the generic requests exception, which is a different
exception from ExternalError (the exception whose handler produces the
Github 500 message). -/
theorem C4_user_check_counterexample :
    check_user_exists env500 (.s "bob") st0 = (.ok (), ⟨[], [userUrl "bob"]⟩)
    ∧ check_user_exists env0 (.s "bob") st0
        = (.error .requestException, ⟨[], [userUrl "bob"]⟩)
    ∧ PyExc.requestException ≠ PyExc.externalError :=
  ⟨rfl, rfl, by decide⟩

/-- Witness for C4_user_check_amended at concrete environments: the 404,
non-404 and transport cases, and the surfaced replies. -/
theorem C4_user_check_amended_witness :
    (env404.net (userUrl "bob") = some resp404 ∧ resp404.status_code = 404
      ∧ check_user_exists env404 (.s "bob") st0
          = (.error .userNotFound, ⟨[], [userUrl "bob"]⟩))
    ∧ (env500.net (userUrl "bob") = some resp500 ∧ resp500.status_code ≠ 404
      ∧ check_user_exists env500 (.s "bob") st0 = (.ok (), ⟨[], [userUrl "bob"]⟩))
    ∧ (env0.net (userUrl "bob") = none
      ∧ check_user_exists env0 (.s "bob") st0
          = (.error .requestException, ⟨[], [userUrl "bob"]⟩))
    ∧ search env404 (Json.obj [("username", Json.s "bob"), ("pattern", Json.s "a")]) st0
        = (.jsonErr 400 "Invalid username", ⟨[], [userUrl "bob"]⟩) := by
  refine ⟨⟨rfl, rfl, ?_⟩, ⟨rfl, by decide, ?_⟩, ⟨rfl, ?_⟩, ?_⟩
  · simpa [st0] using
      C4_user_check_amended.1 env404 (.s "bob") st0 resp404 rfl rfl
  · simpa [st0] using
      C4_user_check_amended.2.1 env500 (.s "bob") st0 resp500 rfl (by decide)
  · simpa [st0] using C4_user_check_amended.2.2.1 env0 (.s "bob") st0 rfl
  · exact C4_user_check_amended.2.2.2.1 env404
      (Json.obj [("username", Json.s "bob"), ("pattern", Json.s "a")])
      ((Json.s "bob"), (Json.s "a")) st0 ⟨[], [userUrl "bob"]⟩ rfl rfl

/-- Claim C9 (code bug, temporal part proved): for a pattern that fails to
compile (with username present and non-null), the view raises
BadOrMissingParameter during validation and issues no upstream request at
all: the final state, in particular the fetch log, is unchanged.  The
surfaced response, however, is the unhandled-exception 500 (internalError),
not a 400 BadRequest reply, because the error handler crashes on the unbound
result variable. -/
theorem C9_bad_pattern_no_network (env : Env) (pd u0 : Json) (ps : String)
    (st : St) (hu : jsonGet pd "username" = .ok u0) (_hnn : isNone u0 = false)
    (hp : jsonGet pd "pattern" = .ok (.s ps)) (hc : env.reCompile ps = none) :
    search_validate env pd = .error .badOrMissingParameter
    ∧ search env pd st = (.internalError, st) := by
  have hv : search_validate env pd = .error .badOrMissingParameter := by
    simp [search_validate, hu, hp, hc, isNone]
  exact ⟨hv, by simp [search, hv]⟩

/-- Witness for C9_bad_pattern_no_network at a concrete request. -/
theorem C9_bad_pattern_no_network_witness :
    jsonGet (Json.obj [("username", Json.s "alice"), ("pattern", Json.s "(")])
        "username" = .ok (Json.s "alice")
    ∧ isNone (Json.s "alice") = false
    ∧ jsonGet (Json.obj [("username", Json.s "alice"), ("pattern", Json.s "(")])
        "pattern" = .ok (Json.s "(")
    ∧ env0.reCompile "(" = none
    ∧ (search_validate env0
        (Json.obj [("username", Json.s "alice"), ("pattern", Json.s "(")])
          = .error .badOrMissingParameter
      ∧ search env0 (Json.obj [("username", Json.s "alice"), ("pattern", Json.s "(")]) st0
          = (.internalError, st0)) :=
  ⟨rfl, rfl, rfl, rfl,
    C9_bad_pattern_no_network env0 _ (Json.s "alice") "(" st0 rfl rfl rfl rfl⟩

/-- Claim C10: in every successful run of the gist loop, each listed gist
contributes at most one entry to the matches list, so the length of the
result never exceeds the length of the accumulator plus the number of listed
gists (with the empty accumulator of the pipeline: the number of listed
gists). -/
theorem C10_matches_bounded_by_gists (env : Env) (username pattern : Json)
    (gists : List Json) (matching ms : List String) (st st' : St)
    (h : searchLoop env username pattern gists matching st = (.ok ms, st')) :
    ms.length ≤ matching.length + gists.length := by
  induction gists generalizing matching st with
  | nil =>
      simp only [searchLoop] at h
      cases h
      simp
  | cons g rest ih =>
      simp only [searchLoop] at h
      repeat' split at h
      all_goals
        first
          | cases h
          | (have hb := ih _ _ h
             simp only [List.length_cons]
             simp only [List.length_append, List.length_cons, List.length_nil] at hb
             omega)

/-- Witness for C10_matches_bounded_by_gists: one listed gist, one match. -/
theorem C10_matches_bounded_by_gists_witness :
    searchLoop env10 (Json.s "u") (Json.s "p") [gist10] [] st0
      = (.ok ["https://gist.github.com/u/x1"],
         ⟨[], ["https://api.github.com/gists/x"]⟩)
    ∧ (["https://gist.github.com/u/x1"] : List String).length
        ≤ ([] : List String).length + ([gist10] : List Json).length := by
  refine ⟨rfl, ?_⟩
  have := C10_matches_bounded_by_gists env10 (Json.s "u") (Json.s "p")
    [gist10] [] ["https://gist.github.com/u/x1"] st0
    ⟨[], ["https://api.github.com/gists/x"]⟩ rfl
  exact this

/-- Claim C3 (amended): a transport error during a per-document fetch
(document URL or raw-content URL) raises the generic requests exception, not
ExternalError; the catch-all handler surfaces it as HTTP 500 with message
Your request could not be processed, and no matches list is returned.  A
non-2xx response is not detected as a failure at all: a raw-content fetch
returns the response body as the file content regardless of status. -/
theorem C3_document_failures_amended :
    (∀ (env : Env) (u : String) (st : St),
      env.withRedis = false → env.net u = none →
      fetch_single_gist env (.s u) st
        = (.error .requestException, { st with log := st.log ++ [u] }))
    ∧ (∀ (env : Env) (u : String) (st : St),
      env.withRedis = false → env.net u = none →
      fetch_file_content env (.s u) st
        = (.error .requestException, { st with log := st.log ++ [u] }))
    ∧ (∀ (env : Env) (u : String) (st : St) (r : Response),
      env.withRedis = false → env.net u = some r →
      fetch_file_content env (.s u) st
        = (.ok r.text, { st with log := st.log ++ [u] }))
    ∧ (∀ (env : Env) (pd : Json) (up : Json × Json) (st st2 : St),
      search_validate env pd = .ok up →
      search_pipeline env up.1 up.2 st = (.error .requestException, st2) →
      search env pd st
        = (.jsonErr 500 "Your request could not be processed", st2)) := by
  refine ⟨?_, ?_, ?_, ?_⟩
  · intro env u st hr hn
    simp [fetch_single_gist, requests_get, hr, hn]
  · intro env u st hr hn
    simp [fetch_file_content, requests_get, hr, hn]
  · intro env u st r hr hn
    simp [fetch_file_content, requests_get, hr, hn]
  · intro env pd up st st2 h1 h2
    obtain ⟨u, p⟩ := up
    simp only [search, h1]
    simp [h2]

/-- Counterexample for claim C3 as stated: with one listed gist whose own
URL suffers a transport error, the request aborts with the catch-all 500
message Your request could not be processed, not with the UpstreamError
message Information could not be retrieved from Github. -/
theorem C3_document_failures_counterexample :
    search env3 pd3 st0
      = (.jsonErr 500 "Your request could not be processed",
         ⟨[], [userUrl "u", gistsUrl "u" 100 1, "g1"]⟩)
    ∧ replyMessage (search env3 pd3 st0).1
        ≠ some "Information could not be retrieved from Github" := by
  have e : search env3 pd3 st0
      = (.jsonErr 500 "Your request could not be processed",
         ⟨[], [userUrl "u", gistsUrl "u" 100 1, "g1"]⟩) := rfl
  refine ⟨e, ?_⟩
  rw [e]
  simp [replyMessage]

/-- Witness for C3_document_failures_amended at concrete environments. -/
theorem C3_document_failures_amended_witness :
    (env0.withRedis = false ∧ env0.net "g" = none
      ∧ fetch_single_gist env0 (.s "g") st0
          = (.error .requestException, ⟨[], ["g"]⟩)
      ∧ fetch_file_content env0 (.s "g") st0
          = (.error .requestException, ⟨[], ["g"]⟩))
    ∧ (env500.net "g" = some resp500
      ∧ fetch_file_content env500 (.s "g") st0 = (.ok "", ⟨[], ["g"]⟩))
    ∧ (search_validate env3 pd3 = .ok ((Json.s "u"), (Json.s "a"))
      ∧ search_pipeline env3 (Json.s "u") (Json.s "a") st0
          = (.error .requestException, ⟨[], [userUrl "u", gistsUrl "u" 100 1, "g1"]⟩)
      ∧ search env3 pd3 st0
          = (.jsonErr 500 "Your request could not be processed",
             ⟨[], [userUrl "u", gistsUrl "u" 100 1, "g1"]⟩)) := by
  refine ⟨⟨rfl, rfl, ?_, ?_⟩, ⟨rfl, ?_⟩, rfl, rfl, ?_⟩
  · simpa [st0] using C3_document_failures_amended.1 env0 "g" st0 rfl rfl
  · simpa [st0] using C3_document_failures_amended.2.1 env0 "g" st0 rfl rfl
  · simpa [st0, resp500] using
      C3_document_failures_amended.2.2.1 env500 "g" st0 resp500 rfl rfl
  · exact C3_document_failures_amended.2.2.2 env3 pd3
      ((Json.s "u"), (Json.s "a")) st0
      ⟨[], [userUrl "u", gistsUrl "u" 100 1, "g1"]⟩ rfl rfl

/-- Helper: total length of the concatenation of pages that all have 100
items. -/
theorem flatten_map_length_100 (items : Nat → List Json) :
    ∀ (l : List Nat), (∀ p ∈ l, (items p).length = 100) →
      ((l.map items).flatten).length = 100 * l.length := by
  intro l
  induction l with
  | nil => simp
  | cons a t ih =>
      intro h
      have ha : (items a).length = 100 := h a (by simp)
      have ht := ih (fun p hp => h p (by simp [hp]))
      simp only [List.map_cons, List.flatten_cons, List.length_append,
        List.length_cons, ha, ht]
      ring

/-- Helper: one iteration of the pagination loop: when the last page was
exactly full and fuel remains (the page cap has not been passed), the next
page is fetched, logged, and appended to the accumulator. -/
theorem gistsLoop_step (env : Env) (u : String) (fuel page : Nat)
    (last acc j2 : List Json) (st : St) (hlen : last.length = 100)
    (hnet : env.net (gistsUrl u 100 (page + 1)) = some (listResp j2)) :
    gistsLoop env u (fuel + 1) (.arr last) (.arr acc) page st
      = gistsLoop env u fuel (.arr j2) (.arr (acc ++ j2)) (page + 1)
          { st with log := st.log ++ [gistsUrl u 100 (page + 1)] } := by
  conv_lhs => rw [gistsLoop]
  simp [pyLen, hlen, requests_get, hnet, raise_for_status, listResp, jsonOf, pyAdd]

/-- Helper: the pagination loop returns the accumulator when the fuel is out
(the page counter passed the cap of 30). -/
theorem gistsLoop_stop_cap (env : Env) (u : String) (page : Nat)
    (last acc : List Json) (st : St) :
    gistsLoop env u 0 (.arr last) (.arr acc) page st = (.ok (.arr acc), st) := by
  conv_lhs => rw [gistsLoop]
  simp [pyLen]

/-- Helper: the pagination loop returns the accumulator when the last page
was not exactly full. -/
theorem gistsLoop_stop_short (env : Env) (u : String) (fuel page : Nat)
    (last acc : List Json) (st : St) (hlen : last.length ≠ 100) :
    gistsLoop env u fuel (.arr last) (.arr acc) page st = (.ok (.arr acc), st) := by
  conv_lhs => rw [gistsLoop]
  cases fuel with
  | zero => simp [pyLen]
  | succ f => simp [pyLen, hlen]

/-- Helper: run of the pagination loop when every page it can reach is
exactly full: the loop keeps fetching until the page counter passes the cap,
accumulating pages page+1 .. 31 and logging their URLs. -/
theorem gistsLoop_full (env : Env) (u : String) (items : Nat → List Json)
    (H1 : ∀ p, 2 ≤ p → p ≤ 31 →
      env.net (gistsUrl u 100 p) = some (listResp (items p)))
    (H2 : ∀ p, 1 ≤ p → p ≤ 30 → (items p).length = 100) :
    ∀ (fuel page : Nat) (acc : List Json) (st : St),
      page + fuel = 31 → 1 ≤ page →
      gistsLoop env u fuel (.arr (items page)) (.arr acc) page st
        = (.ok (.arr (acc ++ ((List.range' (page + 1) fuel).map items).flatten)),
           { st with
              log := st.log ++ (List.range' (page + 1) fuel).map (gistsUrl u 100) }) := by
  intro fuel
  induction fuel with
  | zero =>
      intro page acc st hsum hpage
      rw [gistsLoop_stop_cap]
      simp
  | succ f ih =>
      intro page acc st hsum hpage
      have hlen : (items page).length = 100 := H2 page hpage (by omega)
      have hnet : env.net (gistsUrl u 100 (page + 1))
          = some (listResp (items (page + 1))) := H1 (page + 1) (by omega) (by omega)
      rw [gistsLoop_step env u f page (items page) acc (items (page + 1)) st hlen hnet]
      rw [ih (page + 1) (acc ++ items (page + 1))
        { st with log := st.log ++ [gistsUrl u 100 (page + 1)] } (by omega) (by omega)]
      rw [List.range'_succ]
      simp [List.append_assoc]

/-- Helper: run of the pagination loop when pages below k are full and page
k is the first short page (k at most the cap): the loop stops at page k,
accumulating pages page+1 .. k and logging their URLs. -/
theorem gistsLoop_upto (env : Env) (u : String) (items : Nat → List Json)
    (k : Nat) (hk : k ≤ 30)
    (H1 : ∀ p, 2 ≤ p → p ≤ k →
      env.net (gistsUrl u 100 p) = some (listResp (items p)))
    (H2 : ∀ p, 1 ≤ p → p < k → (items p).length = 100)
    (H3 : (items k).length ≠ 100) :
    ∀ (fuel page : Nat) (acc : List Json) (st : St),
      page + fuel = 31 → 1 ≤ page → page ≤ k →
      gistsLoop env u fuel (.arr (items page)) (.arr acc) page st
        = (.ok (.arr (acc ++ ((List.range' (page + 1) (k - page)).map items).flatten)),
           { st with
              log := st.log
                ++ (List.range' (page + 1) (k - page)).map (gistsUrl u 100) }) := by
  intro fuel
  induction fuel with
  | zero =>
      intro page acc st hsum hpage hpk
      omega
  | succ f ih =>
      intro page acc st hsum hpage hpk
      rcases eq_or_lt_of_le hpk with heq | hlt
      · have h3 : (items page).length ≠ 100 := by rw [heq]; exact H3
        have h0 : k - page = 0 := by omega
        rw [gistsLoop_stop_short env u (f + 1) page (items page) acc st h3]
        simp [h0]
      · have hlen : (items page).length = 100 := H2 page hpage hlt
        have hnet : env.net (gistsUrl u 100 (page + 1))
            = some (listResp (items (page + 1))) := H1 (page + 1) (by omega) (by omega)
        rw [gistsLoop_step env u f page (items page) acc (items (page + 1)) st hlen hnet]
        rw [ih (page + 1) (acc ++ items (page + 1))
          { st with log := st.log ++ [gistsUrl u 100 (page + 1)] } (by omega) (by omega)
          (by omega)]
        have hsplit : k - page = (k - (page + 1)) + 1 := by omega
        rw [hsplit, List.range'_succ]
        simp [List.append_assoc]

/-- Helper: gists_for_user when every page through the cap is full: page 1
is fetched outside the loop, then the loop fetches pages 2 .. 31 (page 31
included), returning the concatenation of all 31 pages. -/
theorem gists_for_user_full (env : Env) (u : String) (items : Nat → List Json)
    (st : St)
    (H1 : ∀ p, 1 ≤ p → p ≤ 31 →
      env.net (gistsUrl u 100 p) = some (listResp (items p)))
    (H2 : ∀ p, 1 ≤ p → p ≤ 30 → (items p).length = 100) :
    gists_for_user env (.s u) st
      = (.ok (.arr (((List.range' 1 31).map items).flatten)),
         { st with log := st.log ++ (List.range' 1 31).map (gistsUrl u 100) }) := by
  have h1 : env.net (gistsUrl u 100 1) = some (listResp (items 1)) :=
    H1 1 le_rfl (by omega)
  have hloop := gistsLoop_full env u items
    (fun p hp2 hp31 => H1 p (by omega) hp31) H2 30 1 (items 1)
    { st with log := st.log ++ [gistsUrl u 100 1] } (by omega) le_rfl
  simp only [gists_for_user, pyFormat, requests_get, h1, raise_for_status,
    listResp, jsonOf]
  norm_num
  rw [hloop]
  rw [show List.range' 1 31 = 1 :: List.range' 2 30 from List.range'_succ 1 30 1]
  simp [List.append_assoc]

/-- Helper: gists_for_user when pages below k are full and page k is the
first short page (1 <= k <= 30): exactly pages 1 .. k are fetched and their
items concatenated. -/
theorem gists_for_user_upto (env : Env) (u : String) (items : Nat → List Json)
    (k : Nat) (st : St) (hk1 : 1 ≤ k) (hk30 : k ≤ 30)
    (H1 : ∀ p, 1 ≤ p → p ≤ k →
      env.net (gistsUrl u 100 p) = some (listResp (items p)))
    (H2 : ∀ p, 1 ≤ p → p < k → (items p).length = 100)
    (H3 : (items k).length ≠ 100) :
    gists_for_user env (.s u) st
      = (.ok (.arr (((List.range' 1 k).map items).flatten)),
         { st with log := st.log ++ (List.range' 1 k).map (gistsUrl u 100) }) := by
  have h1 : env.net (gistsUrl u 100 1) = some (listResp (items 1)) :=
    H1 1 le_rfl hk1
  have hloop := gistsLoop_upto env u items k hk30
    (fun p hp2 hpk => H1 p (by omega) hpk) H2 H3 30 1 (items 1)
    { st with log := st.log ++ [gistsUrl u 100 1] } (by omega) le_rfl hk1
  simp only [gists_for_user, pyFormat, requests_get, h1, raise_for_status,
    listResp, jsonOf]
  norm_num
  rw [hloop]
  have hk' : k = (k - 1) + 1 := by omega
  rw [show List.range' 1 k = 1 :: List.range' 2 (k - 1) by
    rw [hk', List.range'_succ]
    simp]
  simp [List.append_assoc]

/-- Claim C8: when page N is full for N below k and page k is the first
short page (k at most the cap of 30), the lister fetches exactly pages
1 .. k, in order, and returns the concatenation of all the pages items, in
page order then item order within each page. -/
theorem C8_pagination (env : Env) (u : String) (items : Nat → List Json)
    (k : Nat) (st : St) (hk1 : 1 ≤ k) (hk30 : k ≤ 30)
    (H1 : ∀ p, 1 ≤ p → p ≤ k →
      env.net (gistsUrl u 100 p) = some (listResp (items p)))
    (H2 : ∀ p, 1 ≤ p → p < k → (items p).length = 100)
    (H3 : (items k).length < 100) :
    gists_for_user env (.s u) st
      = (.ok (.arr (((List.range' 1 k).map items).flatten)),
         { st with log := st.log ++ (List.range' 1 k).map (gistsUrl u 100) }) :=
  gists_for_user_upto env u items k st hk1 hk30 H1 H2 (by omega)

/-- Witness for C8_pagination: two pages, the first full, the second with a
single item; both pages are fetched, in order, and concatenated. -/
theorem C8_pagination_witness :
    gists_for_user env8 (.s "bob") st0
      = (.ok (.arr (((List.range' 1 2).map items8).flatten)),
         ⟨[], (List.range' 1 2).map (gistsUrl "bob" 100)⟩)
    ∧ (List.range' 1 2).map (gistsUrl "bob" 100)
        = [gistsUrl "bob" 100 1, gistsUrl "bob" 100 2]
    ∧ (((List.range' 1 2).map items8).flatten).length = 101 := by
  have hH1 : ∀ p, 1 ≤ p → p ≤ 2 →
      env8.net (gistsUrl "bob" 100 p) = some (listResp (items8 p)) := by
    intro p h1 h2
    interval_cases p
    · rfl
    · show (if gistsUrl "bob" 100 2 = gistsUrl "bob" 100 1 then
          some (listResp full100) else some (listResp [Json.null]))
        = some (listResp (items8 2))
      rw [if_neg (by decide)]
      rfl
  have h := C8_pagination env8 "bob" items8 2 st0 (by omega) (by omega) hH1
    (fun p h1 h2 => by
      have hp : p = 1 := by omega
      rw [hp]
      simp [items8, full100])
    (by simp [items8])
  refine ⟨by simpa [st0] using h, by rfl, ?_⟩
  rw [show List.range' 1 2 = [1, 2] from by decide]
  simp [items8, full100]

/-- Claim C1 (amended): when every page through page 30 is full, the lister
fetches 31 pages, pages 1 .. 31 in order (page 31 is fetched: the cap check
lets one extra iteration through), and returns the 3000 items of pages
1 .. 30 followed by whatever page 31 returned. -/
theorem C1_pagination_cap_amended (env : Env) (u : String)
    (items : Nat → List Json) (st : St)
    (H1 : ∀ p, 1 ≤ p → p ≤ 31 →
      env.net (gistsUrl u 100 p) = some (listResp (items p)))
    (H2 : ∀ p, 1 ≤ p → p ≤ 30 → (items p).length = 100) :
    gists_for_user env (.s u) st
      = (.ok (.arr (((List.range' 1 31).map items).flatten)),
         { st with log := st.log ++ (List.range' 1 31).map (gistsUrl u 100) })
    ∧ (((List.range' 1 31).map items).flatten).length
        = 3000 + (items 31).length := by
  refine ⟨gists_for_user_full env u items st H1 H2, ?_⟩
  have hsplit : List.range' 1 31 = List.range' 1 30 ++ [31] := by decide
  rw [hsplit]
  have h30 := flatten_map_length_100 items (List.range' 1 30)
    (fun p hp => by
      rw [List.mem_range'_1] at hp
      exact H2 p (by omega) (by omega))
  simp [h30]

/-- Counterexample for claim C1 as stated: with every page full, the lister
issues 31 requests (page 31 is fetched) and returns 3100 items, not 30
requests and 3000 items. -/
theorem C1_pagination_cap_counterexample :
    gists_for_user envAllFull (.s "alice") st0
      = (.ok (.arr (((List.range' 1 31).map (fun _ => full100)).flatten)),
         ⟨[], (List.range' 1 31).map (gistsUrl "alice" 100)⟩)
    ∧ (((List.range' 1 31).map (fun _ => full100)).flatten).length = 3100
    ∧ ((List.range' 1 31).map (gistsUrl "alice" 100)).length = 31
    ∧ gistsUrl "alice" 100 31 ∈ (List.range' 1 31).map (gistsUrl "alice" 100) := by
  refine ⟨?_, ?_, by simp, ?_⟩
  · have h := gists_for_user_full envAllFull "alice" (fun _ => full100) st0
      (fun p h1 h2 => rfl) (fun p h1 h2 => by simp [full100])
    simpa [st0] using h
  · have h := flatten_map_length_100 (fun _ => full100) (List.range' 1 31)
      (fun p hp => by simp [full100])
    simpa using h
  · exact List.mem_map.mpr ⟨31, by simp [List.mem_range'_1], rfl⟩

/-- Witness for C1_pagination_cap_amended at the all-pages-full
environment. -/
theorem C1_pagination_cap_amended_witness :
    gists_for_user envAllFull (.s "carol") st0
      = (.ok (.arr (((List.range' 1 31).map (fun _ => full100)).flatten)),
         ⟨[], (List.range' 1 31).map (gistsUrl "carol" 100)⟩)
    ∧ (((List.range' 1 31).map (fun _ => full100)).flatten).length
        = 3000 + full100.length := by
  have h := C1_pagination_cap_amended envAllFull "carol" (fun _ => full100) st0
    (fun p h1 h2 => rfl) (fun p h1 h2 => by simp [full100])
  exact ⟨by simpa [st0] using h.1, h.2⟩

/-- Helper: deduplication is the identity on lists of distinct keys none of
which was already seen. -/
theorem dedupFirst_of_nodup :
    ∀ (l seen : List String), l.Nodup → (∀ a ∈ l, a ∉ seen) →
      dedupFirst seen l = l := by
  intro l
  induction l with
  | nil => intro seen _ _; rfl
  | cons a t ih =>
      intro seen hnd hseen
      have ha : a ∉ seen := hseen a (by simp)
      rw [dedupFirst, if_neg ha]
      have hat : a ∉ t := (List.nodup_cons.mp hnd).1
      rw [ih (a :: seen) (List.nodup_cons.mp hnd).2]
      intro b hb
      intro hmem
      rcases List.mem_cons.mp hmem with he | hs
      · exact hat (he ▸ hb)
      · exact hseen b (by simp [hb]) hs

/-- Helper: the keys of a manifest built from distinct filenames are exactly
those filenames, in order. -/
theorem pyKeys_map (g : String → Json) (fs : List (String × String))
    (hnd : (fs.map Prod.fst).Nodup) :
    pyKeys (fs.map fun nc => (nc.1, g nc.2)) = fs.map Prod.fst := by
  unfold pyKeys
  rw [List.map_map]
  exact dedupFirst_of_nodup _ [] hnd (fun a _ => List.not_mem_nil a)

/-- Helper: looking a filename up in a manifest with distinct filenames
finds its entry. -/
theorem lookup_map (g : String → Json) :
    ∀ (fs : List (String × String)), (fs.map Prod.fst).Nodup →
      ∀ nc ∈ fs, ((fs.map fun x => (x.1, g x.2)).lookup nc.1) = some (g nc.2) := by
  intro fs
  induction fs with
  | nil => intro _ nc h; cases h
  | cons x t ih =>
      intro hnd nc hm
      have hnd' : (x.1 :: t.map Prod.fst).Nodup := by
        rw [List.map_cons] at hnd; exact hnd
      rcases List.mem_cons.mp hm with rfl | hmt
      · simp [List.lookup]
      · have hx : x.1 ∉ t.map Prod.fst := (List.nodup_cons.mp hnd').1
        have hne : (nc.1 == x.1) = false := by
          refine beq_eq_false_iff_ne.mpr (fun he => hx ?_)
          exact he ▸ List.mem_map_of_mem Prod.fst hmt
        simp only [List.map_cons, List.lookup, hne]
        exact ih (List.nodup_cons.mp hnd').2 nc hmt

/-- Helper: processing one non-truncated file entry: no fetch happens, and
the loop stops with true exactly when the inline content matches at
position 0, otherwise it continues with the remaining keys. -/
theorem scanFiles_cons_plain (env : Env) (p : String) (r : Regex)
    (hcomp : env.reCompile p = some r) (kvs : List (String × Json))
    (k c : String) (rest : List String) (st : St)
    (h1 : kvs.lookup k = some (plainFile c)) :
    scanFiles env (.s p) kvs (k :: rest) st
      = (if reMatchAt0 r c then (.ok true, st)
         else scanFiles env (.s p) kvs rest st) := by
  have hre : re_match_py env (.s p) (.s c) = .ok (reMatchAt0 r c) := by
    simp [re_match_py, hcomp]
  conv_lhs => rw [scanFiles]
  simp [jsonGet, h1, plainFile, List.lookup, truthy, hre]
  cases reMatchAt0 r c <;> simp

/-- Helper: the file loop over a manifest of non-truncated entries with
distinct filenames performs no fetch and returns exactly whether some file
content matches the pattern at position 0, testing files in manifest
order. -/
theorem scanFiles_plain (env : Env) (p : String) (r : Regex)
    (hcomp : env.reCompile p = some r) (kvs : List (String × Json)) :
    ∀ (pairs : List (String × String)) (st : St),
      (∀ nc ∈ pairs, kvs.lookup nc.1 = some (plainFile nc.2)) →
      scanFiles env (.s p) kvs (pairs.map Prod.fst) st
        = (.ok (docMatch r pairs), st) := by
  intro pairs
  induction pairs with
  | nil => intro st _; rfl
  | cons nc t ih =>
      intro st hlk
      have h1 : kvs.lookup nc.1 = some (plainFile nc.2) := hlk nc (by simp)
      rw [List.map_cons, scanFiles_cons_plain env p r hcomp kvs nc.1 nc.2 _ st h1]
      cases hm : reMatchAt0 r nc.2 with
      | true => simp [docMatch, List.any_cons, hm]
      | false =>
          rw [if_neg (by simp [hm])]
          rw [ih st (fun x hx => hlk x (List.mem_cons_of_mem _ hx))]
          simp [docMatch, List.any_cons, hm]

/-- Helper: the match test of the source succeeds exactly when the pattern
accepts some initial segment of the text (anchored at position 0). -/
theorem matchAux_iff_initial (r : Regex) (cs : List Char) :
    matchAux r cs = true
      ↔ ∃ k, k ≤ cs.length ∧ acceptsChars r (cs.take k) = true := by
  induction cs generalizing r with
  | nil =>
      constructor
      · intro h
        exact ⟨0, by simp, by simpa [acceptsChars, matchAux] using h⟩
      · rintro ⟨k, hk, hacc⟩
        simp only [List.length_nil, Nat.le_zero] at hk
        subst hk
        simpa [matchAux, acceptsChars] using hacc
  | cons c cs ih =>
      simp only [matchAux, Bool.or_eq_true]
      constructor
      · rintro (hn | hm)
        · exact ⟨0, by simp, by simpa [acceptsChars] using hn⟩
        · obtain ⟨k, hk, hacc⟩ := (ih (r.deriv c)).mp hm
          refine ⟨k + 1, by simp; omega, ?_⟩
          simpa [acceptsChars, List.take_succ_cons] using hacc
      · rintro ⟨k, hk, hacc⟩
        cases k with
        | zero =>
            left
            simpa [acceptsChars] using hacc
        | succ k' =>
            right
            refine (ih (r.deriv c)).mpr ⟨k', ?_, ?_⟩
            · simp at hk; omega
            · simpa [acceptsChars, List.take_succ_cons] using hacc

/-- Claim C5: for every document the matcher iterates files in manifest
order, tests each file text with the pattern anchored at the start of the
text, reports the document as matching and stops at the first matching file
(later files, even truncated ones whose resolution would fetch, are not
touched: the state is unchanged), and reports no match when no file
matches.  The fourth conjunct characterises the test as acceptance of an
initial segment (match at position 0); the fifth separates it from
full-text search on a concrete pattern and text. -/
theorem C5_matcher :
    (∀ (env : Env) (p : String) (r : Regex) (fs : List (String × String)) (st : St),
      env.reCompile p = some r → (fs.map Prod.fst).Nodup →
      scanFiles env (.s p) (fs.map fun nc => (nc.1, plainFile nc.2))
          (pyKeys (fs.map fun nc => (nc.1, plainFile nc.2))) st
        = (.ok (docMatch r fs), st))
    ∧ (∀ (env : Env) (p : String) (r : Regex) (st : St) (c : String) (ru : Json),
      env.reCompile p = some r → reMatchAt0 r c = true →
      scanFiles env (.s p) [("f1", plainFile c), ("f2", truncFile ru)]
          (pyKeys [("f1", plainFile c), ("f2", truncFile ru)]) st
        = (.ok true, st))
    ∧ (∀ (env : Env) (p : String) (r : Regex) (st : St) (c u : String)
        (resp : Response),
      env.reCompile p = some r → env.withRedis = false →
      reMatchAt0 r c = false → env.net u = some resp →
      scanFiles env (.s p) [("f1", plainFile c), ("f2", truncFile (Json.s u))]
          (pyKeys [("f1", plainFile c), ("f2", truncFile (Json.s u))]) st
        = (.ok (reMatchAt0 r resp.text), ⟨st.cache, st.log ++ [u]⟩))
    ∧ (∀ (r : Regex) (cs : List Char),
      matchAux r cs = true
        ↔ ∃ k, k ≤ cs.length ∧ acceptsChars r (cs.take k) = true)
    ∧ (reMatchAt0 (Regex.chr 'b') "ab" = false
      ∧ specSearchAnywhere (Regex.chr 'b') "ab" = true) := by
  refine ⟨?_, ?_, ?_, matchAux_iff_initial, by decide⟩
  · intro env p r fs st hcomp hnd
    rw [pyKeys_map plainFile fs hnd]
    exact scanFiles_plain env p r hcomp _ fs st (lookup_map plainFile fs hnd)
  · intro env p r st c ru hcomp hm
    have hre : re_match_py env (.s p) (.s c) = .ok true := by
      simp [re_match_py, hcomp, hm]
    have hk : pyKeys [("f1", plainFile c), ("f2", truncFile ru)] = ["f1", "f2"] := rfl
    rw [hk]
    simp [scanFiles, jsonGet, List.lookup, plainFile, truthy, hre]
  · intro env p r st c u resp hcomp hredis hm hn
    have hre1 : re_match_py env (.s p) (.s c) = .ok false := by
      simp [re_match_py, hcomp, hm]
    have hre2 : re_match_py env (.s p) (.s resp.text)
        = .ok (reMatchAt0 r resp.text) := by
      simp [re_match_py, hcomp]
    have hf : fetch_file_content env (.s u) st
        = (.ok resp.text, ⟨st.cache, st.log ++ [u]⟩) := by
      simp [fetch_file_content, requests_get, hredis, hn]
    have hk : pyKeys [("f1", plainFile c), ("f2", truncFile (Json.s u))]
        = ["f1", "f2"] := rfl
    rw [hk]
    cases hb : reMatchAt0 r resp.text with
    | true =>
        simp [scanFiles, jsonGet, List.lookup, plainFile, truncFile, truthy,
          hre1, hre2, hf, hb]
    | false =>
        simp [scanFiles, jsonGet, List.lookup, plainFile, truncFile, truthy,
          hre1, hre2, hf, hb]

/-- Witness for C5_matcher at concrete manifests and patterns. -/
theorem C5_matcher_witness :
    (env5.reCompile "p" = some (Regex.chr 'f')
      ∧ scanFiles env5 (.s "p")
          ([("a.py", "foo"), ("b.py", "bar")].map fun nc => (nc.1, plainFile nc.2))
          (pyKeys ([("a.py", "foo"), ("b.py", "bar")].map
            fun nc => (nc.1, plainFile nc.2))) st0
        = (.ok (docMatch (Regex.chr 'f') [("a.py", "foo"), ("b.py", "bar")]), st0)
      ∧ docMatch (Regex.chr 'f') [("a.py", "foo"), ("b.py", "bar")] = true)
    ∧ (reMatchAt0 (Regex.chr 'f') "foo" = true
      ∧ scanFiles env5 (.s "p")
          [("f1", plainFile "foo"), ("f2", truncFile (Json.s "http://raw"))]
          (pyKeys [("f1", plainFile "foo"), ("f2", truncFile (Json.s "http://raw"))])
          st0
        = (.ok true, st0))
    ∧ (reMatchAt0 (Regex.chr 'f') "xoo" = false
      ∧ scanFiles env5 (.s "p")
          [("f1", plainFile "xoo"), ("f2", truncFile (Json.s "http://raw"))]
          (pyKeys [("f1", plainFile "xoo"), ("f2", truncFile (Json.s "http://raw"))])
          st0
        = (.ok (reMatchAt0 (Regex.chr 'f') "frob"), ⟨[], ["http://raw"]⟩))
    ∧ (matchAux (Regex.chr 'f') "foo".toList = true
        ↔ ∃ k, k ≤ ("foo".toList).length
            ∧ acceptsChars (Regex.chr 'f') ("foo".toList.take k) = true) := by
  refine ⟨⟨rfl, ?_, by decide⟩, ⟨by decide, ?_⟩, ⟨by decide, ?_⟩, ?_⟩
  · exact C5_matcher.1 env5 "p" (Regex.chr 'f') [("a.py", "foo"), ("b.py", "bar")]
      st0 rfl (by decide)
  · exact C5_matcher.2.1 env5 "p" (Regex.chr 'f') st0 "foo"
      (Json.s "http://raw") rfl (by decide)
  · have h := C5_matcher.2.2.1 env5 "p" (Regex.chr 'f') st0 "xoo" "http://raw"
      ⟨200, "frob", none⟩ rfl rfl (by decide) rfl
    simpa [st0] using h
  · exact C5_matcher.2.2.2.1 (Regex.chr 'f') "foo".toList

/-- Helper: fetch_single_gist on a cache miss (no redis): the document is
fetched from the network and parsed. -/
theorem fetch_single_gist_miss (env : Env) (u : String) (j : Json) (st : St)
    (hredis : env.withRedis = false) (hn : env.net u = some (jsonResp j)) :
    fetch_single_gist env (.s u) st = (.ok j, { st with log := st.log ++ [u] }) := by
  simp [fetch_single_gist, requests_get, hredis, hn, jsonOf, jsonResp]

/-- Helper: the gist loop over stubs that each resolve to a full document of
non-truncated files appends, in listing order, the canonical URL of exactly
the gists with a matching file, and fetches each stub URL once, in order. -/
theorem searchLoop_descs (env : Env) (u p : String) (r : Regex)
    (hredis : env.withRedis = false) (hcomp : env.reCompile p = some r) :
    ∀ (descs : List GistDesc) (acc : List String) (st : St),
      (∀ d ∈ descs, env.net d.stubUrl = some (jsonResp (fullJson d))) →
      (∀ d ∈ descs, (d.files.map Prod.fst).Nodup) →
      searchLoop env (.s u) (.s p) (descs.map stubJson) acc st
        = (.ok (acc ++ descs.filterMap fun d =>
              if docMatch r d.files then some (canonUrl (.s u) (.s d.gid)) else none),
           { st with log := st.log ++ descs.map GistDesc.stubUrl }) := by
  intro descs
  induction descs with
  | nil => intro acc st _ _; simp [searchLoop]
  | cons d t ih =>
      intro acc st hnet hnd
      have h1 : env.net d.stubUrl = some (jsonResp (fullJson d)) := hnet d (by simp)
      have hnd1 : (d.files.map Prod.fst).Nodup := hnd d (by simp)
      have hfiles : jsonGet (fullJson d) "files"
          = .ok (.obj (d.files.map fun nc => (nc.1, plainFile nc.2))) := by
        simp [fullJson, jsonGet, List.lookup]
      have hid : jsonGet (fullJson d) "id" = .ok (.s d.gid) := by
        simp [fullJson, jsonGet, List.lookup]
      have hscan := scanFiles_plain env p r hcomp
        (d.files.map fun nc => (nc.1, plainFile nc.2)) d.files
        { st with log := st.log ++ [d.stubUrl] } (lookup_map plainFile d.files hnd1)
      have hurl : jsonGet (stubJson d) "url" = .ok (.s d.stubUrl) := by
        simp [stubJson, jsonGet, List.lookup]
      rw [List.map_cons]
      conv_lhs => rw [searchLoop]
      simp only [hurl]
      simp only [fetch_single_gist_miss env d.stubUrl (fullJson d) st hredis h1]
      simp only [hfiles]
      rw [pyKeys_map plainFile d.files hnd1]
      simp only [hscan]
      cases hm : docMatch r d.files with
      | true =>
          simp only [hid]
          rw [ih (acc ++ [canonUrl (.s u) (.s d.gid)]) _
            (fun x hx => hnet x (by simp [hx])) (fun x hx => hnd x (by simp [hx]))]
          simp [List.filterMap_cons, hm, List.append_assoc]
      | false =>
          simp only [hm]
          rw [ih acc _
            (fun x hx => hnet x (by simp [hx])) (fun x hx => hnd x (by simp [hx]))]
          simp [List.filterMap_cons, hm, List.append_assoc]

/-- Claim C7: every search against a user whose listing fits in one page of
gists with non-truncated files completes as a success reply that echoes the
username and pattern and contains the canonical URLs
https://gist.github.com/username/id of exactly the gists with a matching
file, in listing order; non-matching gists are skipped but processing
continues past them (the final log shows every stub was fetched, in
order). -/
theorem C7_search_success (env : Env) (u p : String) (r : Regex)
    (r0 : Response) (descs : List GistDesc) (st : St)
    (hredis : env.withRedis = false)
    (hcomp : env.reCompile p = some r)
    (huser : env.net (userUrl u) = some r0)
    (h404 : r0.status_code ≠ 404)
    (hlist : env.net (gistsUrl u 100 1) = some (listResp (descs.map stubJson)))
    (hlen : descs.length ≠ 100)
    (hstubs : ∀ d ∈ descs, env.net d.stubUrl = some (jsonResp (fullJson d)))
    (hnodup : ∀ d ∈ descs, (d.files.map Prod.fst).Nodup) :
    search env (.obj [("username", Json.s u), ("pattern", Json.s p)]) st
      = (.json200 (Json.s u) (Json.s p)
           (descs.filterMap fun d =>
             if docMatch r d.files then some (canonUrl (Json.s u) (Json.s d.gid))
             else none),
         ⟨st.cache,
          st.log ++ [userUrl u, gistsUrl u 100 1] ++ descs.map GistDesc.stubUrl⟩) := by
  have hval : search_validate env
      (.obj [("username", Json.s u), ("pattern", Json.s p)])
      = .ok ((Json.s u), (Json.s p)) := by
    simp [search_validate, jsonGet, List.lookup, isNone, hcomp]
  have hch : check_user_exists env (Json.s u) st
      = (.ok (), { st with log := st.log ++ [userUrl u] }) := by
    simp [check_user_exists, requests_get, pyFormat, huser, h404]
  have hg : gists_for_user env (Json.s u) { st with log := st.log ++ [userUrl u] }
      = (.ok (.arr (descs.map stubJson)),
         { st with log := st.log ++ [userUrl u] ++ [gistsUrl u 100 1] }) := by
    simp only [gists_for_user, pyFormat, requests_get, hlist, raise_for_status,
      listResp, jsonOf]
    rw [gistsLoop_stop_short env u 30 1 (descs.map stubJson) (descs.map stubJson)
      _ (by simpa using hlen)]
    simp [List.append_assoc]
  have hloop := searchLoop_descs env u p r hredis hcomp descs []
    { st with log := st.log ++ [userUrl u] ++ [gistsUrl u 100 1] } hstubs hnodup
  simp only [search, hval, search_pipeline, hch, hg, pyIter]
  rw [hloop]
  simp [List.append_assoc]

/-- Witness for C7_search_success: three gists D1 (no match), D2 (match),
D3 (match on its second file); the reply lists the canonical URLs of D2 and
D3 in listing order. -/
theorem C7_search_success_witness :
    search env7 pd7 st0
      = (.json200 (Json.s "alice") (Json.s "pat")
          ["https://gist.github.com/alice/id2", "https://gist.github.com/alice/id3"],
         ⟨[], [userUrl "alice", gistsUrl "alice" 100 1,
               d1.stubUrl, d2.stubUrl, d3.stubUrl]⟩) := by
  have h := C7_search_success env7 "alice" "pat" (Regex.chr 'f') resp200
    [d1, d2, d3] st0 rfl rfl rfl (by decide) rfl (by decide)
    (by
      intro d hd
      fin_cases hd <;> rfl)
    (by
      intro d hd
      fin_cases hd <;> decide)
  exact h.trans rfl
